import Mathlib

/-!
Verification of the scoring/aggregation engine of the maturity-assessment
application (`app/domain/services.py`, `app/application/api.py`,
`app/domain/schemas.py`, `app/infrastructure/repositories_entry.py`,
`app/web/routes/api.py`).

The Python code is shallowly embedded: catalog rows and assessment entries
become Lean structures, the aggregation SQL of `ScoringService` is translated
to its relational semantics over in-memory lists, Python floats carrying the
NaN sentinel become the two-constructor type `PyFloat`, Python exceptions
become the `PyError` sum type, and fallible operations return `Except`.
Rational numbers stand for the (finite) float and decimal values the code
manipulates.  Database ids are `Int` (Python ints).
-/

/-- Python float values as the scoring engine uses them: an ordinary (finite)
number, or the NaN sentinel produced by float("nan") for "no data". -/
inductive PyFloat where
  | num (q : ℚ)
  | nan
  deriving DecidableEq, Repr

/-- math.isnan, as used by compute_dimension_averages. -/
def math_isnan : PyFloat → Bool
  | .nan => true
  | .num _ => false

/-- DimensionORM (infrastructure/models.py): top-level category.  Descriptive
fields not read by the scoring engine are omitted. -/
structure DimensionORM where
  id : Int
  name : String
  deriving DecidableEq, Repr

/-- ThemeORM (infrastructure/models.py): mid-level grouping inside one
dimension. -/
structure ThemeORM where
  id : Int
  dimension_id : Int
  name : String
  deriving DecidableEq, Repr

/-- TopicORM (infrastructure/models.py): the unit being rated, inside one
theme. -/
structure TopicORM where
  id : Int
  theme_id : Int
  name : String
  deriving DecidableEq, Repr

/-- AssessmentEntryORM (infrastructure/models.py): the rating of one topic in
one session.  evidence_links and the timestamps are never read by the
aggregation code and are omitted. -/
structure AssessmentEntryORM where
  session_id : Int
  topic_id : Int
  current_maturity : Option Int
  desired_maturity : Option Int
  computed_score : Option ℚ
  current_is_na : Bool
  desired_is_na : Bool
  comment : Option String
  progress_state : String
  deriving DecidableEq, Repr

/-- The persisted state the engine reads and writes: the catalog tables, the
ids of the existing assessment sessions, and the assessment entries. -/
structure DbState where
  dimensions : List DimensionORM
  themes : List ThemeORM
  topics : List TopicORM
  sessions : List Int
  entries : List AssessmentEntryORM
  deriving DecidableEq, Repr

/-- clamp_rating (domain/services.py): None passes through, a level in [1,5]
is returned unchanged (int(level) is the identity on ints), anything else
raises ValueError.  The error is the raised message. -/
def clamp_rating (level : Option Int) : Except String (Option Int) :=
  match level with
  | none => Except.ok none
  | some l =>
      if ¬(1 ≤ l ∧ l ≤ 5) then Except.error "Rating must be between 1 and 5 inclusive."
      else Except.ok (some l)

/-- score_expr in ScoringService.compute_theme_averages:
COALESCE(computed_score, current_maturity), with the ordinal rating cast to a
number when it is used. -/
def score_expr (e : AssessmentEntryORM) : Option ℚ :=
  match e.computed_score with
  | some c => some c
  | none => e.current_maturity.map (fun m => (m : ℚ))

/-- The CASE expression aggregated by compute_theme_averages: an entry
contributes score_expr when current_is_na is false, and SQL NULL otherwise.
SQL AVG skips NULLs, and rated_count counts exactly the rows where this value
is non-NULL, so this one function determines both aggregates. -/
def theme_score_case (e : AssessmentEntryORM) : Option ℚ :=
  if e.current_is_na then none else score_expr e

/-- The topics of one theme (the total_topics subquery groups topics by
theme_id; COALESCE(total_topics, 0) is the length of this list). -/
def theme_topics (db : DbState) (t : ThemeORM) : List TopicORM :=
  db.topics.filter (fun tp => tp.theme_id == t.id)

/-- The rows of the compute_theme_averages join that carry an entry for the
given theme and session: Theme LEFT JOIN Topic LEFT JOIN AssessmentEntry ON
(topic_id, session_id).  Join rows whose entry side is NULL contribute nothing
to either aggregate, so they are dropped here. -/
def theme_join_rows (db : DbState) (session_id : Int) (t : ThemeORM) :
    List AssessmentEntryORM :=
  (theme_topics db t).flatMap
    (fun tp => db.entries.filter (fun e => e.topic_id == tp.id && e.session_id == session_id))

/-- The non-NULL values of the aggregated CASE expression for one theme:
exactly the inputs of AVG, and rated_count is the length of this list. -/
def theme_rated_scores (db : DbState) (session_id : Int) (t : ThemeORM) : List ℚ :=
  (theme_join_rows db session_id t).filterMap theme_score_case

/-- AverageResult (domain/services.py): average is float("nan") when there is
no rated data; coverage is a proportion in [0, 1]. -/
structure AverageResult where
  id : Int
  name : String
  average : PyFloat
  coverage : ℚ
  deriving DecidableEq, Repr

/-- ORDER BY ThemeORM.name of the aggregation query. -/
def sort_themes (l : List ThemeORM) : List ThemeORM :=
  l.mergeSort (fun a b => decide (a.name ≤ b.name))

/-- ORDER BY DimensionORM.name of the dimension query. -/
def sort_dimensions (l : List DimensionORM) : List DimensionORM :=
  l.mergeSort (fun a b => decide (a.name ≤ b.name))

/-- One output row of ScoringService.compute_theme_averages: coverage is
rated_count / total_topics guarded by total_topics = 0, and the average is the
SQL AVG translated to NaN when it is NULL. -/
def theme_average_row (db : DbState) (session_id : Int) (t : ThemeORM) : AverageResult :=
  let total_topics := (theme_topics db t).length
  let rated := theme_rated_scores db session_id t
  let coverage : ℚ := if total_topics = 0 then 0 else (rated.length : ℚ) / (total_topics : ℚ)
  let avg : PyFloat :=
    if rated.length = 0 then PyFloat.nan else PyFloat.num (rated.sum / (rated.length : ℚ))
  { id := t.id, name := t.name, average := avg, coverage := coverage }

/-- ScoringService.compute_theme_averages: one row per theme of the catalog,
ordered by theme name. -/
def compute_theme_averages (db : DbState) (session_id : Int) : List AverageResult :=
  (sort_themes db.themes).map (theme_average_row db session_id)

/-- The theme_to_dim dict of compute_dimension_averages, built from the
(theme id, dimension id) pairs; theme ids are a primary key, so the dict is a
first-match lookup. -/
def theme_to_dim (themes : List ThemeORM) (theme_id : Int) : Option Int :=
  (themes.find? (fun th => th.id == theme_id)).map (fun th => th.dimension_id)

/-- The not math.isnan(value) filter of the dimension averaging list
comprehension, as an Option: a NaN average is dropped, a number is kept. -/
def not_nan_val (v : PyFloat) : Option ℚ :=
  match v with
  | PyFloat.nan => none
  | PyFloat.num q => some q

/-- One output row of ScoringService.compute_dimension_averages: grouping the
per-theme results by dimension, the average is the mean of the theme averages
that are not NaN (NaN when there are none), and the coverage is the
equal-weighted mean of all the theme coverages. -/
def dimension_average_row (db : DbState) (theme_results : List AverageResult)
    (d : DimensionORM) : AverageResult :=
  let ts := theme_results.filter (fun tr => theme_to_dim db.themes tr.id == some d.id)
  if ts.isEmpty then { id := d.id, name := d.name, average := PyFloat.nan, coverage := 0 }
  else
    let theme_avgs := ts.filterMap (fun tr => not_nan_val tr.average)
    let avg : PyFloat :=
      if theme_avgs.isEmpty then PyFloat.nan
      else PyFloat.num (theme_avgs.sum / (theme_avgs.length : ℚ))
    let coverage : ℚ := (ts.map (fun tr => tr.coverage)).sum / (ts.length : ℚ)
    { id := d.id, name := d.name, average := avg, coverage := coverage }

/-- ScoringService.compute_dimension_averages: one row per dimension of the
catalog, ordered by dimension name, computed from the per-theme results. -/
def compute_dimension_averages (db : DbState) (session_id : Int) : List AverageResult :=
  let theme_results := compute_theme_averages db session_id
  (sort_dimensions db.dimensions).map (dimension_average_row db theme_results)

/-- The effective-score selection rule exactly as the specification states it
in its score-selection section, written from the specification words so that
the two code paths can be compared against it. -/
def effective_score_spec (e : AssessmentEntryORM) : Option ℚ :=
  if e.current_is_na then none
  else
    match e.computed_score with
    | some c => some c
    | none => e.current_maturity.map (fun m => (m : ℚ))

/-- The per-entry value combine_sessions_to_master (application/api.py)
collects into by_topic: N/A entries are skipped, computed_score is preferred
over current_maturity, and entries with neither are skipped (None). -/
def combine_entry_value (e : AssessmentEntryORM) : Option ℚ :=
  if e.current_is_na then none
  else
    match e.computed_score with
    | some c => some c
    | none => e.current_maturity.map (fun m => (m : ℚ))

/-- Python exceptions relevant to the engine.  valueError and typeError are
language builtins; validationError, businessLogicError and resilienceError
stand for the application exception classes of infrastructure/exceptions.py,
all of which derive from ResilienceAssessmentError. -/
inductive PyError where
  | valueError (msg : String)
  | typeError (msg : String)
  | validationError (field : String) (msg : String)
  | businessLogicError (msg : String) (rule : String)
  | resilienceError (msg : String)
  deriving DecidableEq, Repr

/-- isinstance(e, ResilienceAssessmentError): the application exception
classes satisfy it, the Python builtins ValueError and TypeError do not. -/
def is_resilience_assessment_error : PyError → Bool
  | PyError.validationError _ _ => true
  | PyError.businessLogicError _ _ => true
  | PyError.resilienceError _ => true
  | _ => false

/-- SessionCombineInput (domain/schemas.py): 1..50 distinct positive source
session ids and a name of 1..255 characters (whitespace handling of the name
is outside this model: the name is taken as already stripped). -/
def validate_session_combine_input (source_session_ids : List Int) (name : String) : Bool :=
  decide (1 ≤ source_session_ids.length) && decide (source_session_ids.length ≤ 50)
    && decide (1 ≤ name.length) && decide (name.length ≤ 255)
    && decide source_session_ids.Nodup
    && source_session_ids.all (fun sid => decide (0 < sid))

/-- The keyword parameters EntryRepo.upsert (repositories_entry.py) accepts:
its signature is (session_id, topic_id, rating_level, computed_score, is_na,
comment). -/
def upsert_accepted_kwargs : List String :=
  ["session_id", "topic_id", "rating_level", "computed_score", "is_na", "comment"]

/-- The keyword argument names application/api.py passes to EntryRepo.upsert,
identical at both call sites inside combine_sessions_to_master and in
record_topic_rating. -/
def api_upsert_call_kwargs : List String :=
  ["session_id", "topic_id", "current_maturity", "desired_maturity", "computed_score",
   "current_is_na", "desired_is_na", "comment", "evidence_links", "progress_state"]

/-- Python keyword-argument binding: a call raises
TypeError("got an unexpected keyword argument") exactly when it passes a
keyword name the callee signature does not declare. -/
def has_unexpected_kwarg (accepted call_args : List String) : Bool :=
  call_args.any (fun k => !(accepted.contains k))

/-- EntryRepo.list_for_session: the entries of one session.  (The source
orders them by topic name; the combination logic only ever averages over
them, so the order is irrelevant here.) -/
def list_for_session (db : DbState) (session_id : Int) : List AssessmentEntryORM :=
  db.entries.filter (fun e => e.session_id == session_id)

/-- The by_topic dict of combine_sessions_to_master, read back for one topic:
over the source sessions in order, every entry of the topic contributes
combine_entry_value when it is not None. -/
def by_topic_values (db : DbState) (source_session_ids : List Int) (topic_id : Int) : List ℚ :=
  (source_session_ids.flatMap (fun sid => list_for_session db sid)).filterMap
    (fun e => if e.topic_id == topic_id then combine_entry_value e else none)

/-- Python round() to the nearest integer: ties round to the even integer. -/
def python_round (q : ℚ) : Int :=
  let f := ⌊q⌋
  let frac := q - (f : ℚ)
  if frac < 1 / 2 then f
  else if 1 / 2 < frac then f + 1
  else if f % 2 = 0 then f else f + 1

/-- Python round(x, 2): half-to-even rounding at two decimal places, the
value stored into computed_score via Decimal(str(round(average_score, 2))). -/
def python_round2 (q : ℚ) : ℚ := (python_round (q * 100) : ℚ) / 100

/-- The master entry combine_sessions_to_master asks the repository to write
for one topic: for a non-empty value list, computed_score is the mean rounded
to 2 places and both ordinal ratings are the clamped rounded mean; otherwise
an N/A placeholder entry. -/
def master_entry_for_topic (master_id : Int) (tp : TopicORM) (values : List ℚ) :
    AssessmentEntryORM :=
  if values.length ≠ 0 then
    let average_score := values.sum / (values.length : ℚ)
    let rounded := max 1 (min 5 (python_round average_score))
    { session_id := master_id, topic_id := tp.id,
      current_maturity := some rounded, desired_maturity := some rounded,
      computed_score := some (python_round2 average_score),
      current_is_na := false, desired_is_na := false,
      comment := some "Combined ratings across sessions",
      progress_state := "complete" }
  else
    { session_id := master_id, topic_id := tp.id,
      current_maturity := none, desired_maturity := none, computed_score := none,
      current_is_na := true, desired_is_na := true,
      comment := some "No ratings available in source sessions",
      progress_state := "not_started" }

/-- A fresh autoincrement id for the master session. -/
def next_session_id (db : DbState) : Int := (db.sessions.foldl max 0) + 1

/-- The try-block body of combine_sessions_to_master: verify every source
session id (get_by_id_required raises the builtin ValueError), create the
master session, fail on an empty topic catalog, then write one master entry
per topic through EntryRepo.upsert.  That upsert call passes keyword
arguments the stale upsert signature does not accept, which in Python raises
TypeError before anything is written; the final branch is what the call sites
describe and is reachable only if the keyword sets matched. -/
def combine_sessions_inner (db : DbState) (source_session_ids : List Int) :
    Except PyError (DbState × Int) :=
  match source_session_ids.find? (fun sid => !(db.sessions.contains sid)) with
  | some sid =>
      Except.error (PyError.valueError
        ("AssessmentSessionORM with id " ++ toString sid ++ " not found"))
  | none =>
      let master_id := next_session_id db
      let db1 : DbState := { db with sessions := db.sessions ++ [master_id] }
      if db1.topics.isEmpty then
        Except.error (PyError.businessLogicError "No topics found in the system"
          "topics_required_for_combination")
      else if has_unexpected_kwarg upsert_accepted_kwargs api_upsert_call_kwargs then
        Except.error (PyError.typeError
          "upsert() got an unexpected keyword argument")
      else
        let new_entries := db1.topics.map (fun tp =>
          master_entry_for_topic master_id tp (by_topic_values db source_session_ids tp.id))
        Except.ok ({ db1 with entries := db1.entries ++ new_entries }, master_id)

/-- combine_sessions_to_master (application/api.py): validate the input,
run the combination, and wrap any exception that is not a
ResilienceAssessmentError into BusinessLogicError(rule="session_combination").
An error return leaves the database untouched (the caller rolls the
transaction back). -/
def combine_sessions_to_master (db : DbState) (source_session_ids : List Int)
    (name : String) : Except PyError (DbState × Int) :=
  if !(validate_session_combine_input source_session_ids name) then
    Except.error (PyError.validationError "combination_data" "invalid combination input")
  else
    match combine_sessions_inner db source_session_ids with
    | Except.ok v => Except.ok v
    | Except.error e =>
        if is_resilience_assessment_error e then Except.error e
        else
          Except.error (PyError.businessLogicError
            ("Failed to combine sessions into " ++ name) "session_combination")

/-- AssessmentEntryInput (domain/schemas.py): the validated shape of a rating
submission. -/
structure AssessmentEntryInput where
  session_id : Int
  topic_id : Int
  current_maturity : Option Int
  desired_maturity : Option Int
  computed_score : Option ℚ
  current_is_na : Bool
  desired_is_na : Bool
  comment : Option String
  progress_state : String
  deriving DecidableEq, Repr

/-- Field(decimal_places=2): the value times 100 is an integer. -/
def has_two_decimal_places (c : ℚ) : Bool := (c * 100).den == 1

/-- The pydantic per-field constraints of AssessmentEntryInput: positive ids,
maturities in [1,5], computed_score in [0,5] with two decimal places, and a
legal progress state. -/
def entry_input_field_ok (i : AssessmentEntryInput) : Bool :=
  decide (0 < i.session_id) && decide (0 < i.topic_id)
    && (match i.current_maturity with
        | none => true
        | some m => decide (1 ≤ m ∧ m ≤ 5))
    && (match i.desired_maturity with
        | none => true
        | some m => decide (1 ≤ m ∧ m ≤ 5))
    && (match i.computed_score with
        | none => true
        | some c => decide (0 ≤ c ∧ c ≤ 5) && has_two_decimal_places c)
    && (["not_started", "in_progress", "complete"].contains i.progress_state)

/-- The second block of validate_entry_consistency (the checks guarded by
"if not self.desired_is_na"), reached when the first block raised nothing. -/
def validate_desired_block (i : AssessmentEntryInput) : Except String AssessmentEntryInput :=
  if !i.desired_is_na then
    if i.desired_maturity.isNone then
      Except.error "desired_maturity is required when desired_is_na=False"
    else if i.current_is_na then
      Except.error "desired_maturity cannot be set when current_is_na=True"
    else
      match i.current_maturity, i.desired_maturity with
      | some c, some d =>
          if d < c then
            Except.error "desired_maturity cannot be less than current_maturity"
          else Except.ok i
      | _, _ => Except.ok i
  else Except.ok i

/-- AssessmentEntryInput.validate_entry_consistency (domain/schemas.py),
translated check by check in source order. -/
def validate_entry_consistency (i : AssessmentEntryInput) : Except String AssessmentEntryInput :=
  if i.current_is_na then
    if i.current_maturity.isSome then
      Except.error "current_maturity must be null when current_is_na=True"
    else if !i.desired_is_na then
      Except.error "desired_is_na must be True when current_is_na=True"
    else if i.desired_maturity.isSome then
      Except.error "desired_maturity must be null when desired_is_na=True"
    else validate_desired_block i
  else
    if i.current_maturity.isNone && i.computed_score.isNone then
      Except.error "current_maturity (or computed_score) required when current_is_na=False"
    else if i.desired_is_na then
      Except.error "desired_is_na cannot be True when current_is_na=False"
    else validate_desired_block i

/-- validate_input(AssessmentEntryInput, ...) as record_topic_rating uses it:
pydantic runs the field constraints first and the model validator only on
field-valid data; any failure is surfaced by record_topic_rating as
ValidationError("rating_data", message). -/
def validate_assessment_entry_input (i : AssessmentEntryInput) :
    Except PyError AssessmentEntryInput :=
  if !(entry_input_field_ok i) then
    Except.error (PyError.validationError "rating_data" "field constraint violated")
  else
    match validate_entry_consistency i with
    | Except.error msg => Except.error (PyError.validationError "rating_data" msg)
    | Except.ok v => Except.ok v

/-- Create-or-replace of the (session_id, topic_id) entry, the state change
the upsert would perform. -/
def upsert_entry (entries : List AssessmentEntryORM) (e : AssessmentEntryORM) :
    List AssessmentEntryORM :=
  if entries.any (fun x => x.session_id == e.session_id && x.topic_id == e.topic_id) then
    entries.map (fun x =>
      if x.session_id == e.session_id && x.topic_id == e.topic_id then e else x)
  else entries ++ [e]

/-- The entry record_topic_rating submits to the repository. -/
def entry_of_input (i : AssessmentEntryInput) : AssessmentEntryORM :=
  { session_id := i.session_id, topic_id := i.topic_id,
    current_maturity := i.current_maturity, desired_maturity := i.desired_maturity,
    computed_score := i.computed_score,
    current_is_na := i.current_is_na, desired_is_na := i.desired_is_na,
    comment := i.comment, progress_state := i.progress_state }

/-- The try-block body of record_topic_rating: verify the session and the
topic exist (ValueError from get_by_id_required otherwise), then call
EntryRepo.upsert — a call whose keyword arguments the stale upsert signature
rejects with TypeError; the final branch is the write the call site
describes. -/
def record_topic_rating_inner (db : DbState) (i : AssessmentEntryInput) :
    Except PyError DbState :=
  if !(db.sessions.contains i.session_id) then
    Except.error (PyError.valueError
      ("AssessmentSessionORM with id " ++ toString i.session_id ++ " not found"))
  else if !(db.topics.any (fun tp => tp.id == i.topic_id)) then
    Except.error (PyError.valueError
      ("TopicORM with id " ++ toString i.topic_id ++ " not found"))
  else if has_unexpected_kwarg upsert_accepted_kwargs api_upsert_call_kwargs then
    Except.error (PyError.typeError "upsert() got an unexpected keyword argument")
  else
    Except.ok { db with entries := upsert_entry db.entries (entry_of_input i) }

/-- record_topic_rating (application/api.py): validation runs before any
repository access; a validation failure raises
ValidationError("rating_data", ...) and touches no state.  Inside the try
block, exceptions that are not ResilienceAssessmentError are wrapped into the
base ResilienceAssessmentError.  The returned state is the first component;
on any error it is the input state unchanged. -/
def record_topic_rating (db : DbState) (i : AssessmentEntryInput) :
    DbState × Except PyError Unit :=
  match validate_assessment_entry_input i with
  | Except.error e => (db, Except.error e)
  | Except.ok v =>
      match record_topic_rating_inner db v with
      | Except.ok db2 => (db2, Except.ok ())
      | Except.error e =>
          if is_resilience_assessment_error e then (db, Except.error e)
          else
            (db, Except.error (PyError.resilienceError
              ("Failed to record rating for topic " ++ toString i.topic_id)))

/-- web/routes/api.py _safe_average: None and NaN become an explicit null,
every other float is passed through as a number. -/
def safe_average (value : Option PyFloat) : Option ℚ :=
  match value with
  | none => none
  | some PyFloat.nan => none
  | some (PyFloat.num q) => some q

/-- web/schemas.py AverageScore: the serialized dashboard record; average is
float-or-null in JSON. -/
structure AverageScore where
  id : Int
  name : String
  average : Option ℚ
  coverage : ℚ
  deriving DecidableEq, Repr

/-- web/schemas.py ThemeAverageScore: the serialized per-theme dashboard
record with its parent dimension. -/
structure ThemeAverageScore where
  id : Int
  name : String
  average : Option ℚ
  coverage : ℚ
  dimension_id : Int
  dimension_name : String
  deriving DecidableEq, Repr

/-- The theme_meta dict of get_dashboard_data: the Theme JOIN Dimension row
of one theme id (ids are primary keys, so a first-match lookup). -/
def theme_meta (db : DbState) (theme_id : Int) : Option (Int × String) :=
  match db.themes.find? (fun th => th.id == theme_id) with
  | none => none
  | some th =>
      match db.dimensions.find? (fun d => d.id == th.dimension_id) with
      | none => none
      | some d => some (th.dimension_id, d.name)

/-- get_dashboard_data (web/routes/api.py): the serialized dimension scores;
each engine average passes through _safe_average. -/
def dashboard_dimension_scores (db : DbState) (session_id : Int) : List AverageScore :=
  (compute_dimension_averages db session_id).map (fun r =>
    { id := r.id, name := r.name, average := safe_average (some r.average),
      coverage := r.coverage })

/-- get_dashboard_data (web/routes/api.py): the serialized theme scores;
themes without a catalog meta row are skipped, each engine average passes
through _safe_average. -/
def dashboard_theme_scores (db : DbState) (session_id : Int) : List ThemeAverageScore :=
  (compute_theme_averages db session_id).filterMap (fun r =>
    match theme_meta db r.id with
    | none => none
    | some meta =>
        some { id := r.id, name := r.name, average := safe_average (some r.average),
               coverage := r.coverage, dimension_id := meta.1, dimension_name := meta.2 })

/-- A small concrete catalog to instantiate the theorems: one dimension, one
theme, two topics, one session with two rated entries. -/
def dW : DimensionORM := { id := 100, name := "Gov" }

def thW : ThemeORM := { id := 10, dimension_id := 100, name := "Oversight" }

def tpW1 : TopicORM := { id := 1, theme_id := 10, name := "Topic 1" }

def tpW2 : TopicORM := { id := 2, theme_id := 10, name := "Topic 2" }

def eW1 : AssessmentEntryORM :=
  { session_id := 1, topic_id := 1, current_maturity := some 3, desired_maturity := some 4,
    computed_score := none, current_is_na := false, desired_is_na := false,
    comment := none, progress_state := "complete" }

def eW2 : AssessmentEntryORM :=
  { session_id := 1, topic_id := 2, current_maturity := some 5, desired_maturity := some 5,
    computed_score := none, current_is_na := false, desired_is_na := false,
    comment := none, progress_state := "complete" }

def dbW : DbState :=
  { dimensions := [dW], themes := [thW], topics := [tpW1, tpW2],
    sessions := [1], entries := [eW1, eW2] }

/-- An empty-catalog state with one existing session. -/
def dbE : DbState :=
  { dimensions := [], themes := [], topics := [], sessions := [1], entries := [] }

/-- A rating submission violating the N/A invariant: current_is_na together
with a non-null current_maturity. -/
def iBad : AssessmentEntryInput :=
  { session_id := 1, topic_id := 1, current_maturity := some 3, desired_maturity := none,
    computed_score := none, current_is_na := true, desired_is_na := true,
    comment := none, progress_state := "not_started" }

/-- Splitting a filter over a disjunction: for pointwise-exclusive predicates
the two filtered lists together are a permutation of the filter of the
disjunction. -/
lemma filter_append_filter_perm {α : Type} (p q : α → Bool) (l : List α)
    (hdisj : ∀ x, ¬(p x = true ∧ q x = true)) :
    (l.filter p ++ l.filter q).Perm (l.filter (fun x => p x || q x)) := by
  induction l with
  | nil => simp
  | cons a l ih =>
    by_cases hp : p a = true
    · have hq : q a = false := Bool.eq_false_iff.mpr (fun h => hdisj a ⟨hp, h⟩)
      simp only [List.filter_cons, hp, hq, if_true, Bool.false_eq_true, if_false,
        Bool.true_or, List.cons_append]
      exact ih.cons a
    · have hp2 : p a = false := Bool.eq_false_iff.mpr hp
      by_cases hq : q a = true
      · simp only [List.filter_cons, hp2, hq, Bool.false_eq_true, if_false, if_true,
          Bool.false_or]
        exact List.perm_middle.trans (ih.cons a)
      · have hq2 : q a = false := Bool.eq_false_iff.mpr hq
        simp only [List.filter_cons, hp2, hq2, Bool.false_eq_true, if_false, Bool.false_or]
        exact ih

/-- The per-topic join of the theme aggregation, flattened over topics with
distinct ids, is a permutation of the single filter over the entries whose
topic is in the list. -/
lemma flatMap_topic_filter_perm (entries : List AssessmentEntryORM) (sid : Int)
    (tl : List TopicORM) (h : (tl.map (fun tp => tp.id)).Nodup) :
    (tl.flatMap (fun tp =>
        entries.filter (fun e => e.topic_id == tp.id && e.session_id == sid))).Perm
      (entries.filter (fun e =>
        e.session_id == sid && tl.any (fun tp => e.topic_id == tp.id))) := by
  induction tl with
  | nil => simp
  | cons tp rest ih =>
    rw [List.map_cons, List.nodup_cons] at h
    obtain ⟨hni, hrest⟩ := h
    have hdisj : ∀ x : AssessmentEntryORM,
        ¬((x.topic_id == tp.id && x.session_id == sid) = true
          ∧ (x.session_id == sid && rest.any (fun tq => x.topic_id == tq.id)) = true) := by
      intro x hx
      obtain ⟨h1, h2⟩ := hx
      simp only [Bool.and_eq_true, beq_iff_eq, List.any_eq_true] at h1 h2
      obtain ⟨tq, htq, hxq⟩ := h2.2
      exact hni (List.mem_map.mpr ⟨tq, htq, by rw [← hxq, h1.1]⟩)
    have step := filter_append_filter_perm
      (fun e => e.topic_id == tp.id && e.session_id == sid)
      (fun e => e.session_id == sid && rest.any (fun tq => e.topic_id == tq.id))
      entries hdisj
    have hcong : entries.filter (fun e =>
        (e.topic_id == tp.id && e.session_id == sid)
          || (e.session_id == sid && rest.any (fun tq => e.topic_id == tq.id)))
        = entries.filter (fun e =>
          e.session_id == sid && (tp :: rest).any (fun tq => e.topic_id == tq.id)) := by
      apply List.filter_congr
      intro x _
      simp only [List.any_cons]
      cases hxt : (x.topic_id == tp.id) <;> cases hxs : (x.session_id == sid) <;> simp
    rw [List.flatMap_cons]
    refine ((List.Perm.append_left _ (ih hrest)).trans step).trans ?_
    rw [hcong]

/-- In a list whose keys are distinct, exactly one element carries the key of
a member. -/
lemma countP_key_eq_one {α : Type} (key : α → Int) :
    ∀ (l : List α), (l.map key).Nodup → ∀ t ∈ l,
      l.countP (fun x => key x == key t) = 1 := by
  intro l
  induction l with
  | nil => intro _ t ht; cases ht
  | cons a rest ih =>
    intro h t ht
    rw [List.map_cons, List.nodup_cons] at h
    obtain ⟨hna, hrest⟩ := h
    rcases List.mem_cons.mp ht with rfl | htr
    · rw [List.countP_cons_of_pos _ _ (by simp)]
      have hz : rest.countP (fun x => key x == key t) = 0 := by
        rw [List.countP_eq_zero]
        intro b hb hkb
        simp only [beq_iff_eq] at hkb
        exact hna (List.mem_map.mpr ⟨b, hb, hkb⟩)
      rw [hz]
    · have hne : (key a == key t) = false := Bool.eq_false_iff.mpr
        (fun h => hna (List.mem_map.mpr ⟨t, htr, (beq_iff_eq.mp h).symm⟩))
      rw [List.countP_cons_of_neg _ _ (by simp [hne])]
      exact ih hrest t htr

/-- In a list whose keys are distinct, members with equal keys are equal. -/
lemma key_inj_of_nodup {α : Type} (key : α → Int) :
    ∀ (l : List α), (l.map key).Nodup →
      ∀ a ∈ l, ∀ b ∈ l, key a = key b → a = b := by
  intro l
  induction l with
  | nil => intro _ a ha; cases ha
  | cons x rest ih =>
    intro h a ha b hb hk
    rw [List.map_cons, List.nodup_cons] at h
    obtain ⟨hnx, hrest⟩ := h
    rcases List.mem_cons.mp ha with rfl | har
    · rcases List.mem_cons.mp hb with rfl | hbr
      · rfl
      · exact absurd (List.mem_map.mpr ⟨b, hbr, hk.symm⟩) hnx
    · rcases List.mem_cons.mp hb with rfl | hbr
      · exact absurd (List.mem_map.mpr ⟨a, har, hk⟩) hnx
      · exact ih hrest a har b hbr hk

/-- In a list whose keys are distinct, find? by the key of a member returns
that member. -/
lemma find?_key_of_nodup {α : Type} (key : α → Int) :
    ∀ (l : List α), (l.map key).Nodup → ∀ t ∈ l,
      l.find? (fun x => key x == key t) = some t := by
  intro l
  induction l with
  | nil => intro _ t ht; cases ht
  | cons a rest ih =>
    intro h t ht
    rw [List.map_cons, List.nodup_cons] at h
    obtain ⟨hna, hrest⟩ := h
    rcases List.mem_cons.mp ht with rfl | htr
    · exact List.find?_cons_of_pos _ (by simp)
    · have hne : (key a == key t) = false := Bool.eq_false_iff.mpr
        (fun h => hna (List.mem_map.mpr ⟨t, htr, (beq_iff_eq.mp h).symm⟩))
      rw [List.find?_cons_of_neg _ (by simp [hne]), ih hrest t htr]

/-- Under pairwise exclusivity at most one element passes the filter. -/
lemma length_filter_le_one_of_pairwise {α : Type} (p : α → Bool) :
    ∀ (l : List α), l.Pairwise (fun a b => ¬(p a = true ∧ p b = true)) →
      (l.filter p).length ≤ 1 := by
  intro l
  induction l with
  | nil => simp
  | cons a rest ih =>
    intro h
    rw [List.pairwise_cons] at h
    obtain ⟨ha, hrest⟩ := h
    by_cases hp : p a = true
    · rw [List.filter_cons_of_pos hp]
      have hempty : rest.filter p = [] := by
        rw [List.filter_eq_nil_iff]
        intro b hb hpb
        exact ha b hb ⟨hp, hpb⟩
      simp [hempty]
    · rw [List.filter_cons_of_neg hp]
      exact ih hrest

/-- A flatMap whose pieces have at most one element is no longer than its
index list. -/
lemma length_flatMap_le {α β : Type} (f : α → List β) :
    ∀ (l : List α), (∀ x ∈ l, (f x).length ≤ 1) → (l.flatMap f).length ≤ l.length := by
  intro l
  induction l with
  | nil => simp
  | cons a rest ih =>
    intro h
    rw [List.flatMap_cons, List.length_append]
    have h1 := h a (List.mem_cons_self a rest)
    have h2 := ih (fun x hx => h x (List.mem_cons_of_mem a hx))
    simp only [List.length_cons]
    omega

/-- The mean of a non-empty list of values in [0, 1] lies in [0, 1]. -/
lemma mean_bounds (l : List ℚ) (hne : l ≠ [])
    (h0 : ∀ x ∈ l, 0 ≤ x) (h1 : ∀ x ∈ l, x ≤ 1) :
    0 ≤ l.sum / (l.length : ℚ) ∧ l.sum / (l.length : ℚ) ≤ 1 := by
  have hpos : 0 < (l.length : ℚ) := by
    have := List.length_pos.mpr hne
    exact_mod_cast this
  constructor
  · exact div_nonneg (List.sum_nonneg h0) hpos.le
  · rw [div_le_one hpos]
    have := List.sum_le_card_nsmul l 1 h1
    simpa using this

/-- C10: the shared rating helper clamp_rating does not clamp: None is
returned as None, a level inside [1,5] is returned unchanged, and a level
outside [1,5] raises ValueError instead of being coerced into range. -/
theorem c10_clamp_rating_no_clamping (l : Int) :
    clamp_rating none = Except.ok none
  ∧ (1 ≤ l ∧ l ≤ 5 → clamp_rating (some l) = Except.ok (some l))
  ∧ (l < 1 ∨ 5 < l →
      clamp_rating (some l) = Except.error "Rating must be between 1 and 5 inclusive.") := by
  refine ⟨rfl, fun h => ?_, fun h => ?_⟩
  · simp only [clamp_rating]
    rw [if_neg (by omega)]
  · simp only [clamp_rating]
    rw [if_pos (by omega)]

/-- Witness for C10 at the concrete levels 3 and 7. -/
theorem c10_clamp_rating_no_clamping_witness :
    clamp_rating (some 3) = Except.ok (some 3)
  ∧ clamp_rating (some 7) = Except.error "Rating must be between 1 and 5 inclusive." :=
  ⟨(c10_clamp_rating_no_clamping 3).2.1 (by omega),
   (c10_clamp_rating_no_clamping 7).2.2 (by omega)⟩

/-- C1: the effective score of an entry is None when the entry is N/A,
otherwise its computed_score when that is non-null (even when
current_maturity is also set), otherwise its current_maturity; and the two
aggregation paths — the CASE expression of the theme aggregation and the
value collection of session combination — implement exactly this one rule. -/
theorem c1_effective_score_rule (e : AssessmentEntryORM) :
    theme_score_case e = effective_score_spec e
  ∧ combine_entry_value e = effective_score_spec e :=
  ⟨rfl, rfl⟩

/-- C5: a combination request over an empty topic catalog fails with the
business-rule error (BusinessLogicError, rule topics_required_for_combination)
and never returns a successfully created master session. -/
theorem c5_empty_catalog_fails (db : DbState) (ids : List Int) (name : String)
    (hvalid : validate_session_combine_input ids name = true)
    (hsess : ∀ sid ∈ ids, db.sessions.contains sid = true)
    (hempty : db.topics = []) :
    combine_sessions_to_master db ids name =
      Except.error (PyError.businessLogicError "No topics found in the system"
        "topics_required_for_combination") := by
  have hfind : ids.find? (fun sid => !(db.sessions.contains sid)) = none := by
    rw [List.find?_eq_none]
    intro sid hsid
    rw [hsess sid hsid]
    simp
  unfold combine_sessions_to_master combine_sessions_inner
  rw [hvalid, hfind]
  simp [hempty, is_resilience_assessment_error]

/-- Witness for C5 at a concrete empty-catalog state. -/
theorem c5_empty_catalog_fails_witness :
    combine_sessions_to_master dbE [1] "Master" =
      Except.error (PyError.businessLogicError "No topics found in the system"
        "topics_required_for_combination") :=
  c5_empty_catalog_fails dbE [1] "Master" (by decide) (by decide) rfl

/-- C6 (evaluation at the failing input): with an unknown source session id,
the collaborator raises the builtin ValueError("AssessmentSessionORM ... not
found"), but combine_sessions_to_master re-raises it wrapped as
BusinessLogicError(rule="session_combination") — the not-found error is not
propagated unchanged, contradicting the function docstring, which announces
SessionNotFoundError. -/
theorem c6_not_found_wrapped_as_business_error :
    combine_sessions_to_master dbW [2] "Master" =
      Except.error (PyError.businessLogicError
        ("Failed to combine sessions into " ++ "Master") "session_combination") := by
  rfl

/-- C4 (evaluation at the failing input): combining one valid, fully rated
session over a one-theme two-topic catalog does not produce master entries:
the EntryRepo.upsert call raises TypeError because api.py passes keyword
arguments (current_maturity, desired_maturity, current_is_na, ...) the stale
upsert signature (rating_level, is_na, ...) does not accept, and the generic
handler wraps that into BusinessLogicError. -/
theorem c4_combination_fails_on_stale_upsert :
    combine_sessions_to_master dbW [1] "Master" =
      Except.error (PyError.businessLogicError
        ("Failed to combine sessions into " ++ "Master") "session_combination") := by
  rfl

/-- When an input violates one of the listed entry invariants,
validate_entry_consistency raises. -/
lemma validate_entry_consistency_rejects (i : AssessmentEntryInput)
    (hviol : (i.current_is_na = true
        ∧ (i.current_maturity ≠ none ∨ i.desired_is_na = false ∨ i.desired_maturity ≠ none))
      ∨ (i.current_is_na = false
        ∧ ((i.current_maturity = none ∧ i.computed_score = none)
          ∨ i.desired_is_na = true
          ∨ ∃ c d : Int, i.current_maturity = some c ∧ i.desired_maturity = some d ∧ d < c))) :
    ∃ msg, validate_entry_consistency i = Except.error msg := by
  unfold validate_entry_consistency validate_desired_block
  rcases hviol with ⟨hna, hv⟩ | ⟨hna, hv⟩
  · cases hcm : i.current_maturity with
    | some m =>
      exact ⟨"current_maturity must be null when current_is_na=True", by simp [hna, hcm]⟩
    | none =>
      cases hdna : i.desired_is_na with
      | false =>
        exact ⟨"desired_is_na must be True when current_is_na=True", by simp [hna, hcm, hdna]⟩
      | true =>
        cases hdm : i.desired_maturity with
        | some dm =>
          exact ⟨"desired_maturity must be null when desired_is_na=True",
            by simp [hna, hcm, hdna, hdm]⟩
        | none =>
          rcases hv with h | h | h
          · exact absurd hcm h
          · rw [hdna] at h; cases h
          · exact absurd hdm h
  · rcases hv with ⟨hcm, hcs⟩ | hdna | ⟨c, d, hcm, hdm, hlt⟩
    · exact ⟨"current_maturity (or computed_score) required when current_is_na=False",
        by simp [hna, hcm, hcs]⟩
    · cases hcm : i.current_maturity with
      | none =>
        cases hcs : i.computed_score with
        | none =>
          exact ⟨"current_maturity (or computed_score) required when current_is_na=False",
            by simp [hna, hcm, hcs]⟩
        | some cs =>
          exact ⟨"desired_is_na cannot be True when current_is_na=False",
            by simp [hna, hcm, hcs, hdna]⟩
      | some m =>
        exact ⟨"desired_is_na cannot be True when current_is_na=False",
          by simp [hna, hcm, hdna]⟩
    · cases hdna : i.desired_is_na with
      | true =>
        exact ⟨"desired_is_na cannot be True when current_is_na=False",
          by simp [hna, hcm, hdna]⟩
      | false =>
        refine ⟨"desired_maturity cannot be less than current_maturity", ?_⟩
        simp only [hna, hcm, hdm, hdna]
        simp [hlt, Int.not_le.mpr hlt]

/-- C7: a rating submission violating any of the entry invariants is rejected
by validation with ValidationError("rating_data", ...) before any repository
access: the state is returned unchanged and no entry is written or coerced. -/
theorem c7_validation_rejects_before_persistence (db : DbState) (i : AssessmentEntryInput)
    (hviol : (i.current_is_na = true
        ∧ (i.current_maturity ≠ none ∨ i.desired_is_na = false ∨ i.desired_maturity ≠ none))
      ∨ (i.current_is_na = false
        ∧ ((i.current_maturity = none ∧ i.computed_score = none)
          ∨ i.desired_is_na = true
          ∨ ∃ c d : Int, i.current_maturity = some c ∧ i.desired_maturity = some d ∧ d < c))) :
    (record_topic_rating db i).1 = db
  ∧ ∃ msg, (record_topic_rating db i).2 =
      Except.error (PyError.validationError "rating_data" msg) := by
  obtain ⟨msg, hmsg⟩ := validate_entry_consistency_rejects i hviol
  unfold record_topic_rating validate_assessment_entry_input
  by_cases hfld : entry_input_field_ok i = true
  · rw [hfld]
    simp [hmsg]
  · rw [Bool.eq_false_iff.mpr hfld]
    simp

/-- Witness for C7: the concrete invalid input (current_is_na with a set
current_maturity) is rejected and the concrete state is untouched. -/
theorem c7_validation_rejects_before_persistence_witness :
    (record_topic_rating dbW iBad).1 = dbW
  ∧ ∃ msg, (record_topic_rating dbW iBad).2 =
      Except.error (PyError.validationError "rating_data" msg) :=
  c7_validation_rejects_before_persistence dbW iBad (Or.inl ⟨rfl, Or.inl (by decide)⟩)

/-- C2: for every session and every theme of the catalog,
compute_theme_averages emits exactly one record for the theme; a theme with
zero topics gets average NaN and coverage 0; otherwise the coverage is the
number of session entries of the theme carrying a non-null effective score
divided by the topic count, and the average is the unweighted arithmetic mean
of exactly those effective scores — NaN when there are none. -/
theorem c2_theme_average_record (db : DbState) (session_id : Int) (t : ThemeORM)
    (ht : t ∈ db.themes)
    (hth : (db.themes.map (fun th => th.id)).Nodup)
    (htp : (db.topics.map (fun tp => tp.id)).Nodup) :
    ((compute_theme_averages db session_id).countP (fun r => r.id == t.id) = 1)
  ∧ (∀ r ∈ compute_theme_averages db session_id, r.id = t.id →
      r.name = t.name
    ∧ ((theme_topics db t).length = 0 → r.average = PyFloat.nan ∧ r.coverage = 0)
    ∧ ((theme_topics db t).length ≠ 0 →
        ∀ scores : List ℚ,
          scores = (db.entries.filter (fun e => e.session_id == session_id &&
              (db.topics.filter (fun tp => tp.theme_id == t.id)).any
                (fun tp => e.topic_id == tp.id))).filterMap theme_score_case →
          r.coverage = (scores.length : ℚ) / ((theme_topics db t).length : ℚ)
        ∧ (scores.length ≠ 0 →
            r.average = PyFloat.num (scores.sum / (scores.length : ℚ)))
        ∧ (scores.length = 0 → r.average = PyFloat.nan))) := by
  have hperm : (sort_themes db.themes).Perm db.themes :=
    List.mergeSort_perm db.themes (fun a b => decide (a.name ≤ b.name))
  constructor
  · have h1 : (compute_theme_averages db session_id).countP (fun r => r.id == t.id)
        = (sort_themes db.themes).countP (fun th => th.id == t.id) := by
      unfold compute_theme_averages
      rw [List.countP_map]
      rfl
    rw [h1, hperm.countP_eq, countP_key_eq_one (fun th => th.id) db.themes hth t ht]
  · intro r hr hrid
    obtain ⟨th, hthm, hre⟩ := List.mem_map.mp hr
    have hthdb : th ∈ db.themes := hperm.mem_iff.mp hthm
    have hid : th.id = t.id := by rw [← hre] at hrid; exact hrid
    have hteq : th = t := key_inj_of_nodup (fun x => x.id) db.themes hth th hthdb t ht hid
    have hrow : r = theme_average_row db session_id t := by rw [← hre, hteq]
    subst hrow
    refine ⟨rfl, ?_, ?_⟩
    · intro h0
      have htt : theme_topics db t = [] := List.length_eq_zero.mp h0
      constructor
      · show (if (theme_rated_scores db session_id t).length = 0 then PyFloat.nan
          else PyFloat.num _) = PyFloat.nan
        rw [if_pos (by simp [theme_rated_scores, theme_join_rows, htt])]
      · show (if (theme_topics db t).length = 0 then (0 : ℚ) else _) = 0
        rw [if_pos h0]
    · intro hne scores hscores
      have hsub : ((db.topics.filter (fun tp => tp.theme_id == t.id)).map
          (fun tp => tp.id)).Nodup :=
        List.Nodup.sublist ((List.filter_sublist _).map _) htp
      have hperm2 : (theme_rated_scores db session_id t).Perm scores := by
        rw [hscores]
        exact List.Perm.filterMap _
          (flatMap_topic_filter_perm db.entries session_id
            (db.topics.filter (fun tp => tp.theme_id == t.id)) hsub)
      have hlen : (theme_rated_scores db session_id t).length = scores.length :=
        hperm2.length_eq
      have hsum : (theme_rated_scores db session_id t).sum = scores.sum :=
        hperm2.sum_eq
      refine ⟨?_, ?_, ?_⟩
      · show (if (theme_topics db t).length = 0 then (0 : ℚ)
          else ((theme_rated_scores db session_id t).length : ℚ)
            / ((theme_topics db t).length : ℚ)) = _
        rw [if_neg hne, hlen]
      · intro hs0
        show (if (theme_rated_scores db session_id t).length = 0 then PyFloat.nan
          else PyFloat.num ((theme_rated_scores db session_id t).sum
            / ((theme_rated_scores db session_id t).length : ℚ))) = _
        rw [if_neg (by omega : ¬(theme_rated_scores db session_id t).length = 0), hlen, hsum]
      · intro hs0
        show (if (theme_rated_scores db session_id t).length = 0 then PyFloat.nan
          else PyFloat.num _) = PyFloat.nan
        rw [if_pos (by omega : (theme_rated_scores db session_id t).length = 0)]

/-- Witness for C2: the concrete catalog emits exactly one record for its
theme. -/
theorem c2_theme_average_record_witness :
    (compute_theme_averages dbW 1).countP (fun r => r.id == thW.id) = 1 :=
  (c2_theme_average_record dbW 1 thW (by decide) (by decide) (by decide)).1

/-- The id field of a dimension row is the dimension id in both branches. -/
lemma dimension_average_row_id (db : DbState) (trs : List AverageResult) (d : DimensionORM) :
    (dimension_average_row db trs d).id = d.id := by
  cases h : (trs.filter (fun tr => theme_to_dim db.themes tr.id == some d.id)).isEmpty with
  | true => simp only [dimension_average_row, h, if_true]
  | false => simp only [dimension_average_row, h, Bool.false_eq_true, if_false]

/-- The name field of a dimension row is the dimension name in both
branches. -/
lemma dimension_average_row_name (db : DbState) (trs : List AverageResult) (d : DimensionORM) :
    (dimension_average_row db trs d).name = d.name := by
  cases h : (trs.filter (fun tr => theme_to_dim db.themes tr.id == some d.id)).isEmpty with
  | true => simp only [dimension_average_row, h, if_true]
  | false => simp only [dimension_average_row, h, Bool.false_eq_true, if_false]

/-- C3: for every session and every dimension of the catalog,
compute_dimension_averages emits exactly one record; a dimension with no
themes gets average NaN and coverage 0; otherwise its average is the
unweighted mean of the averages of its themes with every NaN theme average
excluded (NaN when all are NaN), while its coverage is the unweighted mean
of the coverages of all its themes, the 0 coverages of NaN themes included. -/
theorem c3_dimension_average_record (db : DbState) (session_id : Int) (d : DimensionORM)
    (hd : d ∈ db.dimensions)
    (hdn : (db.dimensions.map (fun x => x.id)).Nodup)
    (hth : (db.themes.map (fun th => th.id)).Nodup) :
    ((compute_dimension_averages db session_id).countP (fun r => r.id == d.id) = 1)
  ∧ (∀ r ∈ compute_dimension_averages db session_id, r.id = d.id →
      ∀ ts : List AverageResult,
        ts = (compute_theme_averages db session_id).filter
          (fun tr => (db.themes.filter (fun th => th.dimension_id == d.id)).any
            (fun th => th.id == tr.id)) →
        r.name = d.name
      ∧ (ts = [] → r.average = PyFloat.nan ∧ r.coverage = 0)
      ∧ (ts ≠ [] →
          r.coverage = (ts.map (fun x => x.coverage)).sum / (ts.length : ℚ)
        ∧ ∀ avgs : List ℚ,
            avgs = ts.filterMap (fun x => not_nan_val x.average) →
            (avgs = [] → r.average = PyFloat.nan)
          ∧ (avgs ≠ [] → r.average = PyFloat.num (avgs.sum / (avgs.length : ℚ))))) := by
  have hperm : (sort_dimensions db.dimensions).Perm db.dimensions :=
    List.mergeSort_perm db.dimensions (fun a b => decide (a.name ≤ b.name))
  have hpermth : (sort_themes db.themes).Perm db.themes :=
    List.mergeSort_perm db.themes (fun a b => decide (a.name ≤ b.name))
  constructor
  · have h1 : (compute_dimension_averages db session_id).countP (fun r => r.id == d.id)
        = (sort_dimensions db.dimensions).countP (fun x => x.id == d.id) := by
      unfold compute_dimension_averages
      rw [List.countP_map]
      apply List.countP_congr
      intro x _
      simp only [Function.comp_apply, dimension_average_row_id]
    rw [h1, hperm.countP_eq, countP_key_eq_one (fun x => x.id) db.dimensions hdn d hd]
  · intro r hr hrid
    obtain ⟨d0, hd0m, hre⟩ := List.mem_map.mp hr
    have hd0db : d0 ∈ db.dimensions := hperm.mem_iff.mp hd0m
    rw [← hre, dimension_average_row_id] at hrid
    have hdeq : d0 = d :=
      key_inj_of_nodup (fun x => x.id) db.dimensions hdn d0 hd0db d hd hrid
    have hrow : r = dimension_average_row db (compute_theme_averages db session_id) d := by
      rw [← hre, hdeq]
    subst hrow
    intro ts hts
    have htseq : (compute_theme_averages db session_id).filter
        (fun tr => theme_to_dim db.themes tr.id == some d.id) = ts := by
      rw [hts]
      apply List.filter_congr
      intro tr htr
      obtain ⟨th0, hth0s, hre0⟩ := List.mem_map.mp htr
      have hth0 : th0 ∈ db.themes := hpermth.mem_iff.mp hth0s
      have htrid : tr.id = th0.id := by rw [← hre0]; rfl
      have hfind : db.themes.find? (fun th => th.id == tr.id) = some th0 := by
        rw [htrid]
        exact find?_key_of_nodup (fun th => th.id) db.themes hth th0 hth0
      have hLHS : (theme_to_dim db.themes tr.id == some d.id)
          = (th0.dimension_id == d.id) := by
        unfold theme_to_dim
        rw [hfind]
        rfl
      rw [hLHS, Bool.eq_iff_iff]
      simp only [beq_iff_eq, List.any_eq_true, List.mem_filter]
      constructor
      · intro hdim
        exact ⟨th0, ⟨hth0, hdim⟩, htrid.symm⟩
      · rintro ⟨th, ⟨hthm2, hdim2⟩, hid2⟩
        have hth2 : th = th0 :=
          key_inj_of_nodup (fun x => x.id) db.themes hth th hthm2 th0 hth0
            (by show th.id = th0.id; rw [hid2, htrid])
        rw [← hth2]
        exact hdim2
    refine ⟨dimension_average_row_name db (compute_theme_averages db session_id) d, ?_, ?_⟩
    · intro hempty
      have hE : dimension_average_row db (compute_theme_averages db session_id) d
          = { id := d.id, name := d.name, average := PyFloat.nan, coverage := 0 } := by
        unfold dimension_average_row
        rw [htseq, hempty]
        rfl
      rw [hE]
      exact ⟨rfl, rfl⟩
    · intro hne
      have hEb : ts.isEmpty = false := List.isEmpty_eq_false.mpr hne
      constructor
      · show (dimension_average_row db (compute_theme_averages db session_id) d).coverage = _
        simp only [dimension_average_row, htseq, hEb, Bool.false_eq_true, if_false]
      · intro avgs havgs
        constructor
        · intro hA
          show (dimension_average_row db (compute_theme_averages db session_id) d).average
            = PyFloat.nan
          simp only [dimension_average_row, htseq, hEb, Bool.false_eq_true, if_false,
            ← havgs, hA]
          rfl
        · intro hA
          have hAb : avgs.isEmpty = false := List.isEmpty_eq_false.mpr hA
          show (dimension_average_row db (compute_theme_averages db session_id) d).average = _
          simp only [dimension_average_row, htseq, ← havgs, hEb, hAb, Bool.false_eq_true,
            if_false]

/-- Witness for C3: the concrete catalog emits exactly one record for its
dimension. -/
theorem c3_dimension_average_record_witness :
    (compute_dimension_averages dbW 1).countP (fun r => r.id == dW.id) = 1 :=
  (c3_dimension_average_record dbW 1 dW (by decide) (by decide) (by decide)).1

/-- Coverage of a single theme row lies in [0, 1] whenever at most one entry
exists per (session, topic) pair. -/
lemma theme_row_coverage_bounds (db : DbState) (session_id : Int) (t : ThemeORM)
    (hq : db.entries.Pairwise (fun a b =>
      ¬(a.session_id = b.session_id ∧ a.topic_id = b.topic_id))) :
    0 ≤ (theme_average_row db session_id t).coverage
  ∧ (theme_average_row db session_id t).coverage ≤ 1 := by
  by_cases h0 : (theme_topics db t).length = 0
  · constructor
    · show (0 : ℚ) ≤ (if (theme_topics db t).length = 0 then (0 : ℚ) else _)
      rw [if_pos h0]
    · show (if (theme_topics db t).length = 0 then (0 : ℚ) else _) ≤ 1
      rw [if_pos h0]
      norm_num
  · have hcount : (theme_rated_scores db session_id t).length ≤ (theme_topics db t).length := by
      refine le_trans (List.length_filterMap_le _ _) ?_
      apply length_flatMap_le
      intro tp _
      apply length_filter_le_one_of_pairwise
      refine hq.imp ?_
      intro a b hab hpab
      obtain ⟨hpa, hpb⟩ := hpab
      simp only [Bool.and_eq_true, beq_iff_eq] at hpa hpb
      exact hab ⟨hpa.2.trans hpb.2.symm, hpa.1.trans hpb.1.symm⟩
    have hpos : 0 < ((theme_topics db t).length : ℚ) := by
      have := Nat.pos_of_ne_zero h0
      exact_mod_cast this
    constructor
    · show (0 : ℚ) ≤ (if (theme_topics db t).length = 0 then (0 : ℚ) else
        ((theme_rated_scores db session_id t).length : ℚ) / ((theme_topics db t).length : ℚ))
      rw [if_neg h0]
      positivity
    · show (if (theme_topics db t).length = 0 then (0 : ℚ) else
        ((theme_rated_scores db session_id t).length : ℚ)
          / ((theme_topics db t).length : ℚ)) ≤ 1
      rw [if_neg h0, div_le_one hpos]
      exact_mod_cast hcount

/-- C8: with at most one entry per (session, topic) — the uniqueness
constraint of the entry table — every theme record and every dimension record
of the scoring engine has coverage inside [0, 1]. -/
theorem c8_coverage_in_unit_range (db : DbState) (session_id : Int)
    (hq : db.entries.Pairwise (fun a b =>
      ¬(a.session_id = b.session_id ∧ a.topic_id = b.topic_id))) :
    (∀ r ∈ compute_theme_averages db session_id, 0 ≤ r.coverage ∧ r.coverage ≤ 1)
  ∧ (∀ r ∈ compute_dimension_averages db session_id, 0 ≤ r.coverage ∧ r.coverage ≤ 1) := by
  have hthm : ∀ r ∈ compute_theme_averages db session_id,
      0 ≤ r.coverage ∧ r.coverage ≤ 1 := by
    intro r hr
    obtain ⟨th, _, hre⟩ := List.mem_map.mp hr
    rw [← hre]
    exact theme_row_coverage_bounds db session_id th hq
  refine ⟨hthm, ?_⟩
  intro r hr
  obtain ⟨d0, _, hre⟩ := List.mem_map.mp hr
  rw [← hre]
  by_cases hts : ((compute_theme_averages db session_id).filter
      (fun tr => theme_to_dim db.themes tr.id == some d0.id)).isEmpty = true
  · have hrow : dimension_average_row db (compute_theme_averages db session_id) d0
        = { id := d0.id, name := d0.name, average := PyFloat.nan, coverage := 0 } := by
      unfold dimension_average_row
      rw [List.isEmpty_iff.mp hts]
      rfl
    rw [hrow]
    norm_num
  · have htsf : ((compute_theme_averages db session_id).filter
        (fun tr => theme_to_dim db.themes tr.id == some d0.id)).isEmpty = false :=
      Bool.eq_false_iff.mpr hts
    have hcov : (dimension_average_row db (compute_theme_averages db session_id) d0).coverage
        = (((compute_theme_averages db session_id).filter
            (fun tr => theme_to_dim db.themes tr.id == some d0.id)).map
              (fun tr => tr.coverage)).sum
          / ((((compute_theme_averages db session_id).filter
            (fun tr => theme_to_dim db.themes tr.id == some d0.id)).length : ℚ)) := by
      simp only [dimension_average_row, htsf, Bool.false_eq_true, if_false]
    rw [hcov]
    have hmem : ∀ x ∈ ((compute_theme_averages db session_id).filter
        (fun tr => theme_to_dim db.themes tr.id == some d0.id)).map (fun tr => tr.coverage),
        0 ≤ x ∧ x ≤ 1 := by
      intro x hx
      obtain ⟨tr, htr, hxe⟩ := List.mem_map.mp hx
      rw [← hxe]
      exact hthm tr (List.mem_filter.mp htr).1
    have hnil : ((compute_theme_averages db session_id).filter
        (fun tr => theme_to_dim db.themes tr.id == some d0.id)).map (fun tr => tr.coverage)
        ≠ [] := by
      intro hcontra
      rw [List.map_eq_nil_iff] at hcontra
      exact (List.isEmpty_eq_false.mp htsf) hcontra
    have hmean := mean_bounds _ hnil (fun x hx => (hmem x hx).1) (fun x hx => (hmem x hx).2)
    rw [List.length_map] at hmean
    exact hmean

/-- Witness for C8: the concrete theme row has coverage inside [0, 1]. -/
theorem c8_coverage_in_unit_range_witness :
    0 ≤ (theme_average_row dbW 1 thW).coverage
  ∧ (theme_average_row dbW 1 thW).coverage ≤ 1 :=
  (c8_coverage_in_unit_range dbW 1 (by decide)).1 (theme_average_row dbW 1 thW)
    (List.mem_map.mpr ⟨thW, List.mem_mergeSort.mpr (by decide), rfl⟩)

/-- C9: at the API boundary every aggregated average is serialized through
_safe_average: a serialized record exists for every engine record, carries
the same id, name and coverage, and its average field is null exactly when
the engine average is NaN and the numeric value otherwise — never a string
or numeric sentinel, so a no-data null is distinct from an average of 0. -/
theorem c9_nan_serialized_as_null (db : DbState) (session_id : Int) :
    (∀ s ∈ dashboard_dimension_scores db session_id,
        ∃ r ∈ compute_dimension_averages db session_id,
          r.id = s.id ∧ r.name = s.name ∧ r.coverage = s.coverage
        ∧ (s.average = none ↔ r.average = PyFloat.nan)
        ∧ (∀ q : ℚ, s.average = some q ↔ r.average = PyFloat.num q))
  ∧ (∀ s ∈ dashboard_theme_scores db session_id,
        ∃ r ∈ compute_theme_averages db session_id,
          r.id = s.id ∧ r.name = s.name ∧ r.coverage = s.coverage
        ∧ (s.average = none ↔ r.average = PyFloat.nan)
        ∧ (∀ q : ℚ, s.average = some q ↔ r.average = PyFloat.num q))
  ∧ (∀ r ∈ compute_dimension_averages db session_id,
        ∃ s ∈ dashboard_dimension_scores db session_id, s.id = r.id) := by
  refine ⟨?_, ?_, ?_⟩
  · intro s hs
    obtain ⟨r, hr, hre⟩ := List.mem_map.mp hs
    refine ⟨r, hr, ?_⟩
    rw [← hre]
    refine ⟨rfl, rfl, rfl, ?_, ?_⟩
    · cases hra : r.average with
      | num q2 => simp [safe_average, hra]
      | nan => simp [safe_average, hra]
    · intro q
      cases hra : r.average with
      | num q2 => simp [safe_average, hra]
      | nan => simp [safe_average, hra]
  · intro s hs
    obtain ⟨r, hr, hre⟩ := List.mem_filterMap.mp hs
    refine ⟨r, hr, ?_⟩
    cases hmeta : theme_meta db r.id with
    | none => rw [hmeta] at hre; cases hre
    | some meta =>
      rw [hmeta] at hre
      rw [Option.some_inj] at hre
      rw [← hre]
      refine ⟨rfl, rfl, rfl, ?_, ?_⟩
      · cases hra : r.average with
        | num q2 => simp [safe_average, hra]
        | nan => simp [safe_average, hra]
      · intro q
        cases hra : r.average with
        | num q2 => simp [safe_average, hra]
        | nan => simp [safe_average, hra]
  · intro r hr
    exact ⟨_, List.mem_map.mpr ⟨r, hr, rfl⟩, rfl⟩

/-- Witness for C9: the concrete dimension record is serialized into the
dashboard with its id preserved. -/
theorem c9_nan_serialized_as_null_witness :
    ∃ s ∈ dashboard_dimension_scores dbW 1,
      s.id = (dimension_average_row dbW (compute_theme_averages dbW 1) dW).id :=
  (c9_nan_serialized_as_null dbW 1).2.2
    (dimension_average_row dbW (compute_theme_averages dbW 1) dW)
    (List.mem_map.mpr ⟨dW, List.mem_mergeSort.mpr (by decide), rfl⟩)
